import Mathlib

/-!
# Verification of the JmcFilamentScale load-cell measurement core

A shallow embedding of `LoadCell.cpp` / `LoadCell.h` / `MovingAverage.h`
(repository `regnaDkciN/Filament-Scale`).  The sensor is external: every
operation that reads the HX711 is parametrised by the list of raw samples
(or the single raw sample) the sensor would deliver.  C++ `double` fields
are modelled as exact rationals, `int32_t`/`int64_t` values as `Int`
(the claims under study never exercise 32/64-bit wraparound of sums),
and C++ truncating integer division as `Int.tdiv`.
-/

/-- `INT_MAX` used to seed the min computation in `ReadRawAverage`. -/
def INT_MAX : Int := 2 ^ 31 - 1

/-- `INT_MIN` used to seed the max computation in `ReadRawAverage`. -/
def INT_MIN : Int := -(2 ^ 31)

/-! ## MovingAverage.h : template class MovingAverage<int32_t, int64_t> -/

/-- State of `MovingAverage<int32_t, int64_t>` (MovingAverage.h).
`m_Values` models the 100-slot backing array (uninitialised slots are
represented by `0`; the code never reads a slot it has not written). -/
structure MovingAverage where
  m_Values : List Int
  m_NumValues : Nat
  m_Size : Nat
  m_Total : Int
deriving DecidableEq, Repr

namespace MovingAverage

/-- `MAX_SIZE` (MovingAverage.h line 174). -/
def MAX_SIZE : Nat := 100

/-- `MIN_SIZE` (MovingAverage.h line 175). -/
def MIN_SIZE : Nat := 1

/-- `MovingAverage::Add` (MovingAverage.h lines 63-84). -/
def Add (m : MovingAverage) (val : Int) : MovingAverage :=
  let total := m.m_Total + val
  if m.m_NumValues < m.m_Size then
    { m with m_Total := total,
             m_Values := m.m_Values.set m.m_NumValues val,
             m_NumValues := m.m_NumValues + 1 }
  else
    let idx := m.m_NumValues % m.m_Size
    let oldest := m.m_Values.getD idx 0
    { m with m_Total := total - oldest,
             m_Values := m.m_Values.set idx val,
             m_NumValues := m.m_NumValues + 1 }

/-- `MovingAverage::Average` (MovingAverage.h lines 95-98):
`m_Total / std::min(m_NumValues, m_Size)`.  The division is undefined in
C++ when the divisor is `0`, so the embedding returns `none` there. -/
def Average (m : MovingAverage) : Option Int :=
  if min m.m_NumValues m.m_Size = 0 then none
  else some (Int.tdiv m.m_Total (min m.m_NumValues m.m_Size))

/-- `MovingAverage::Reset` (MovingAverage.h lines 117-121). -/
def Reset (m : MovingAverage) : MovingAverage :=
  { m with m_Total := 0, m_NumValues := 0 }

/-- `MovingAverage::SetSize` (MovingAverage.h lines 137-159). -/
def SetSize (m : MovingAverage) : Nat → MovingAverage := fun newSize =>
  let clipped := if newSize < MIN_SIZE then MIN_SIZE
                 else if newSize > MAX_SIZE then MAX_SIZE
                 else newSize
  if clipped ≠ m.m_Size then Reset { m with m_Size := clipped } else m

end MovingAverage

/-! ## LoadCell.h enum WeightUnits -/

/-- `enum WeightUnits` (LoadCell.h lines 22-30). -/
inductive WeightUnits where
  | eWuGrams
  | eWuKiloGrams
  | eWuOunces
  | eWuPounds
  | eWuNumUnits
  | eWuBadVal
deriving DecidableEq, Repr

/-! ## LoadCell state -/

/-- The instance data of `class LoadCell` (LoadCell.h lines 363-373)
relevant to measurement (the NVS name pointer is omitted: persistence is
modelled by passing the cached record around explicitly). -/
structure LoadCell where
  m_Gain : Nat
  m_RawTareWeight : Int
  m_IsCalibrated : Bool
  m_Offset : ℚ
  m_Units : WeightUnits
  m_AverageInterval : ℚ
  m_UnitsScaleFactor : ℚ
  m_ConversionFactor : ℚ
  m_MovingAverage : MovingAverage
deriving DecidableEq, Repr

namespace LoadCell

/-- `GRAMS_PER_KILOGRAM` (LoadCell.cpp line 18). -/
def GRAMS_PER_KILOGRAM : ℚ := 1000

/-- `GRAMS_PER_POUND` (LoadCell.cpp line 19). -/
def GRAMS_PER_POUND : ℚ := 453592 / 1000

/-- `OUNCES_PER_POUND` (LoadCell.cpp line 20). -/
def OUNCES_PER_POUND : ℚ := 16

/-- `GRAMS_PER_OUNCE` (LoadCell.cpp line 21). -/
def GRAMS_PER_OUNCE : ℚ := GRAMS_PER_POUND / OUNCES_PER_POUND

/-- `UNCALIBRATED_READ_VALUE` (LoadCell.cpp line 22): `-999999999.9`. -/
def UNCALIBRATED_READ_VALUE : ℚ := -9999999999 / 10

/-- `DEFAULT_AVERAGE_INTERVAL` (LoadCell.cpp line 23). -/
def DEFAULT_AVERAGE_INTERVAL : ℚ := 10

/-- `DEFAULT_GAIN` (LoadCell.h line 344). -/
def DEFAULT_GAIN : Nat := 128

/-- The freshly constructed state (LoadCell.cpp lines 43-50, with the
default gain argument): the member initialiser list, with the moving
average constructed with `DEFAULT_AVERAGE_INTERVAL` (10) slots. -/
def initial : LoadCell :=
  { m_Gain := DEFAULT_GAIN
    m_RawTareWeight := 0
    m_IsCalibrated := false
    m_Offset := 0
    m_Units := WeightUnits.eWuGrams
    m_AverageInterval := DEFAULT_AVERAGE_INTERVAL
    m_UnitsScaleFactor := 1
    m_ConversionFactor := 1
    m_MovingAverage :=
      MovingAverage.SetSize
        { m_Values := List.replicate MovingAverage.MAX_SIZE 0,
          m_NumValues := 0, m_Size := 0, m_Total := 0 } 10 }

/-- The per-batch statistics accumulated by the sampling loop of
`LoadCell::ReadRawAverage` (LoadCell.cpp lines 175-198). -/
structure RawStats where
  sum : Int
  min : Int
  max : Int
deriving DecidableEq, Repr

/-- One iteration of the sampling loop of `LoadCell::ReadRawAverage`
(LoadCell.cpp lines 185-198). -/
def statsStep (s : RawStats) (weight : Int) : RawStats :=
  { sum := s.sum + weight,
    min := if weight < s.min then weight else s.min,
    max := if weight > s.max then weight else s.max }

/-- The sum/min/max gathered by `LoadCell::ReadRawAverage` over the batch
of raw samples (LoadCell.cpp lines 175-198; `sum`, `min`, `max` start at
`0`, `INT_MAX`, `INT_MIN`). -/
def gatherStats (samples : List Int) : RawStats :=
  samples.foldl statsStep { sum := 0, min := INT_MAX, max := INT_MIN }

/-- `LIMIT_DIVISOR` (LoadCell.cpp line 207). -/
def LIMIT_DIVISOR : Int := 800

/-- `LoadCell::ReadRawAverage(count)` (LoadCell.cpp lines 169-243),
parametrised by the `count` raw samples delivered by the sensor after the
throwaway leading read (line 182).  `avg = sum / count` is C++ truncating
`int32_t` division, and the batch is accepted only if
`max < avg + avg/800 && min > avg - avg/800`; otherwise `0` is returned. -/
def ReadRawAverage (samples : List Int) : Int :=
  let s := gatherStats samples
  let avg := Int.tdiv s.sum (samples.length : Int)
  let upperLimit := avg + Int.tdiv avg LIMIT_DIVISOR
  let lowerLimit := avg - Int.tdiv avg LIMIT_DIVISOR
  if s.max < upperLimit ∧ s.min > lowerLimit then avg else 0

/-- `LoadCell::Tare(count)` (LoadCell.cpp lines 267-281), parametrised by
the batch of raw samples `ReadRawAverage` consumes.  On a non-zero
average the tare weight is stored and the moving average reset. -/
def Tare (st : LoadCell) (samples : List Int) : LoadCell × Bool :=
  let tareValue := ReadRawAverage samples
  if tareValue ≠ 0 then
    ({ st with m_RawTareWeight := tareValue,
               m_MovingAverage := st.m_MovingAverage.Reset }, true)
  else (st, false)

/-- `LoadCell::Calibrate(rawCalWeight, cookedCalWeight)` (LoadCell.cpp
lines 305-338), parametrised by the fresh batch `ReadRawAverage` would
consume when `rawCalWeight == 0`.  The raw delta
`rawCalWeight - m_RawTareWeight` is computed in `uint32_t` arithmetic
(both operands convert to `uint32_t`), hence the `emod 2^32` before the
conversion to `double`. -/
def Calibrate (st : LoadCell) (rawCalWeight : Int) (cookedCalWeight : ℚ)
    (freshSamples : List Int) : LoadCell × Bool :=
  if st.m_RawTareWeight = 0 then (st, false)
  else
    let raw := if rawCalWeight = 0 then ReadRawAverage freshSamples else rawCalWeight
    if rawCalWeight = 0 ∧ raw = 0 then (st, false)
    else
      ({ st with
           m_MovingAverage := st.m_MovingAverage.Reset,
           m_UnitsScaleFactor :=
             cookedCalWeight / ((Int.emod (raw - st.m_RawTareWeight) (2 ^ 32) : Int) : ℚ),
           m_IsCalibrated := true }, true)

/-- `LoadCell::GetBaseUnitsFactor(units)` (LoadCell.cpp lines 355-379). -/
def GetBaseUnitsFactor : WeightUnits → ℚ
  | WeightUnits.eWuGrams => 1
  | WeightUnits.eWuKiloGrams => GRAMS_PER_KILOGRAM
  | WeightUnits.eWuOunces => GRAMS_PER_OUNCE
  | WeightUnits.eWuPounds => GRAMS_PER_POUND
  | _ => 0

/-- `LoadCell::SetGain(gain)` (LoadCell.cpp lines 96-121).  The throwaway
raw reading it performs (line 114) does not affect the modelled state;
`ResetAverage()` resets the moving average. -/
def SetGain (st : LoadCell) (gain : Nat) : LoadCell × Bool :=
  if (gain = 128 ∨ gain = 64) ∧ gain ≠ st.m_Gain then
    ({ st with m_IsCalibrated := false,
               m_Gain := gain,
               m_MovingAverage := st.m_MovingAverage.Reset }, true)
  else (st, false)

/-- `LoadCell::SetUnits(newUnits)` (LoadCell.cpp lines 484-521). -/
def SetUnits (st : LoadCell) (newUnits : WeightUnits) : LoadCell × Bool :=
  if newUnits ≠ st.m_Units then
    let toBaseFactor := GetBaseUnitsFactor st.m_Units
    let fromBaseFactor := GetBaseUnitsFactor newUnits
    if toBaseFactor = 0 ∨ fromBaseFactor = 0 then (st, false)
    else
      let k := toBaseFactor / fromBaseFactor
      ({ st with m_ConversionFactor := k,
                 m_Offset := st.m_Offset * k,
                 m_UnitsScaleFactor := st.m_UnitsScaleFactor * k,
                 m_Units := newUnits }, true)
  else (st, true)

/-- `LoadCell::ReadAndAverageRawWeight()` (LoadCell.cpp lines 434-441),
parametrised by the single raw sample read from the sensor: adds it to
the moving average and returns the new average. -/
def ReadAndAverageRawWeight (st : LoadCell) (sample : Int) :
    LoadCell × Option Int :=
  let ma := st.m_MovingAverage.Add sample
  ({ st with m_MovingAverage := ma }, ma.Average)

/-- `LoadCell::ReadWeight()` (LoadCell.cpp lines 392-411), parametrised
by the raw sample the calibrated branch would read.  Returns
`(filteredRaw - m_RawTareWeight) * m_UnitsScaleFactor - m_Offset`, or the
`UNCALIBRATED_READ_VALUE` sentinel (with no state change) when not
calibrated. -/
def ReadWeight (st : LoadCell) (sample : Int) : LoadCell × Option ℚ :=
  if st.m_IsCalibrated then
    let r := ReadAndAverageRawWeight st sample
    (r.1, r.2.map (fun avg =>
      (((avg : ℚ) - (st.m_RawTareWeight : ℚ)) * st.m_UnitsScaleFactor) - st.m_Offset))
  else (st, some UNCALIBRATED_READ_VALUE)

/-- `LoadCell::ResetAverage()` (LoadCell.cpp lines 419-422). -/
def ResetAverage (st : LoadCell) : LoadCell :=
  { st with m_MovingAverage := st.m_MovingAverage.Reset }

/-- `LoadCell::SetOffset(newOffset)` (LoadCell.h line 289). -/
def SetOffset (st : LoadCell) (newOffset : ℚ) : LoadCell :=
  ResetAverage { st with m_Offset := newOffset }

/-- Truncation of a `double` to `int32_t` (`static_cast<int32_t>`):
C++ truncates toward zero, which for a rational is `num.tdiv den`. -/
def ratTruncToInt (q : ℚ) : Int := Int.tdiv q.num (q.den : Int)

/-- Conversion of an `int32_t` value to `size_t` (32-bit unsigned on the
ESP32 target): reduction modulo `2^32`. -/
def intToSizeT (i : Int) : Nat := (Int.emod i (2 ^ 32)).toNat

/-- `LoadCell::SetAverageInterval(interval)` (LoadCell.cpp lines 456-467). -/
def SetAverageInterval (st : LoadCell) (interval : Int) : LoadCell × Bool :=
  let ma := st.m_MovingAverage.SetSize (intToSizeT interval)
  ({ st with m_MovingAverage := ma,
             m_AverageInterval := (ma.m_Size : ℚ) },
   ((ma.m_Size : Int) == interval))

/-- `struct LoadCell::SaveRestoreCache` (LoadCell.h lines 380-390). -/
structure SaveRestoreCache where
  m_Gain : Nat
  m_RawTareWeight : Int
  m_IsCalibrated : Bool
  m_Offset : ℚ
  m_Units : WeightUnits
  m_AverageInterval : ℚ
  m_UnitsScaleFactor : ℚ
  m_ConversionFactor : ℚ
deriving DecidableEq, Repr

/-- The state record cached by `LoadCell::Save()` (LoadCell.cpp lines
538-546) and handed to the external NVS store. -/
def Save (st : LoadCell) : SaveRestoreCache :=
  { m_Gain := st.m_Gain,
    m_RawTareWeight := st.m_RawTareWeight,
    m_IsCalibrated := st.m_IsCalibrated,
    m_Offset := st.m_Offset,
    m_Units := st.m_Units,
    m_AverageInterval := st.m_AverageInterval,
    m_UnitsScaleFactor := st.m_UnitsScaleFactor,
    m_ConversionFactor := st.m_ConversionFactor }

/-- `LoadCell::Restore()` (LoadCell.cpp lines 591-641) on a successfully
fetched cache record, following the field order of the source exactly:
calibrated flag first, then `SetGain(cached gain)`, then the remaining
fields, with the moving-average size set from the restored interval. -/
def Restore (st : LoadCell) (c : SaveRestoreCache) : LoadCell :=
  let st1 := { st with m_IsCalibrated := c.m_IsCalibrated }
  let st2 := (SetGain st1 c.m_Gain).1
  let st3 := { st2 with m_RawTareWeight := c.m_RawTareWeight,
                        m_UnitsScaleFactor := c.m_UnitsScaleFactor,
                        m_AverageInterval := c.m_AverageInterval }
  let st4 := { st3 with
                 m_MovingAverage :=
                   st3.m_MovingAverage.SetSize
                     (intToSizeT (ratTruncToInt c.m_AverageInterval)) }
  { st4 with m_Offset := c.m_Offset,
             m_Units := c.m_Units,
             m_ConversionFactor := c.m_ConversionFactor }

end LoadCell

/-- The states a `LoadCell` instance can actually be in: everything
generated from the freshly constructed instance by the public operations,
including restoring a record saved from another reachable state. -/
inductive Reachable : LoadCell → Prop where
  | init : Reachable LoadCell.initial
  | setGain (st : LoadCell) (g : Nat) :
      Reachable st → Reachable (LoadCell.SetGain st g).1
  | tare (st : LoadCell) (samples : List Int) :
      Reachable st → Reachable (LoadCell.Tare st samples).1
  | calibrate (st : LoadCell) (raw : Int) (cooked : ℚ) (fresh : List Int) :
      Reachable st → Reachable (LoadCell.Calibrate st raw cooked fresh).1
  | setUnits (st : LoadCell) (u : WeightUnits) :
      Reachable st → Reachable (LoadCell.SetUnits st u).1
  | setAverageInterval (st : LoadCell) (n : Int) :
      Reachable st → Reachable (LoadCell.SetAverageInterval st n).1
  | resetAverage (st : LoadCell) :
      Reachable st → Reachable (LoadCell.ResetAverage st)
  | setOffset (st : LoadCell) (q : ℚ) :
      Reachable st → Reachable (LoadCell.SetOffset st q)
  | readWeight (st : LoadCell) (sample : Int) :
      Reachable st → Reachable (LoadCell.ReadWeight st sample).1
  | restore (saved target : LoadCell) :
      Reachable saved → Reachable target →
      Reachable (LoadCell.Restore target (LoadCell.Save saved))

/-! ## Helper lemmas -/

/-- Truncating division of a nonpositive value by a nonnegative one is
nonpositive. -/
theorem tdiv_nonpos_of_nonpos {m n : Int} (hm : m ≤ 0) (hn : 0 ≤ n) :
    Int.tdiv m n ≤ 0 := by
  have h1 := Int.tdiv_nonneg (show (0 : Int) ≤ -m by omega) hn
  have h2 := Int.neg_tdiv m n
  omega

/-- One sampling-loop step keeps the new sample between the running min
and max, and can only move min down and max up. -/
theorem statsStep_le (s : LoadCell.RawStats) (w : Int) :
    (LoadCell.statsStep s w).min ≤ w ∧ w ≤ (LoadCell.statsStep s w).max ∧
    (LoadCell.statsStep s w).min ≤ s.min ∧ s.max ≤ (LoadCell.statsStep s w).max := by
  simp only [LoadCell.statsStep]
  split_ifs <;> omega

/-- Folding the sampling loop preserves `min ≤ max`. -/
theorem foldl_statsStep_min_le_max (l : List Int) :
    ∀ acc : LoadCell.RawStats, acc.min ≤ acc.max →
      (l.foldl LoadCell.statsStep acc).min ≤ (l.foldl LoadCell.statsStep acc).max := by
  induction l with
  | nil => intro acc h; simpa using h
  | cons w t ih =>
      intro acc h
      simp only [List.foldl_cons]
      refine ih _ ?_
      have := statsStep_le acc w
      omega

/-- For a nonempty batch, the min gathered by the sampling loop is at
most the gathered max. -/
theorem gatherStats_min_le_max {samples : List Int} (h : samples ≠ []) :
    (LoadCell.gatherStats samples).min ≤ (LoadCell.gatherStats samples).max := by
  cases samples with
  | nil => exact absurd rfl h
  | cons w t =>
      unfold LoadCell.gatherStats
      simp only [List.foldl_cons]
      refine foldl_statsStep_min_le_max t _ ?_
      have := statsStep_le { sum := 0, min := INT_MAX, max := INT_MIN } w
      omega

/-- `Add` always increments the seen-samples counter. -/
theorem MovingAverage.Add_numValues (m : MovingAverage) (v : Int) :
    (m.Add v).m_NumValues = m.m_NumValues + 1 := by
  simp only [MovingAverage.Add]
  split <;> rfl

/-- `Add` never changes the window size. -/
theorem MovingAverage.Add_size (m : MovingAverage) (v : Int) :
    (m.Add v).m_Size = m.m_Size := by
  simp only [MovingAverage.Add]
  split <;> rfl

/-- `SetGain` never changes the active units. -/
theorem LoadCell.SetGain_units (st : LoadCell) (g : Nat) :
    (LoadCell.SetGain st g).1.m_Units = st.m_Units := by
  simp only [LoadCell.SetGain]
  split <;> rfl

/-- `Tare` never changes the active units. -/
theorem LoadCell.Tare_units (st : LoadCell) (samples : List Int) :
    (LoadCell.Tare st samples).1.m_Units = st.m_Units := by
  simp only [LoadCell.Tare]
  split <;> rfl

/-- `Calibrate` never changes the active units. -/
theorem LoadCell.Calibrate_units (st : LoadCell) (raw : Int) (cooked : ℚ)
    (fresh : List Int) :
    (LoadCell.Calibrate st raw cooked fresh).1.m_Units = st.m_Units := by
  simp only [LoadCell.Calibrate]
  split
  · rfl
  · split <;> split <;> rfl

/-- `SetUnits` either keeps the old units or installs new units whose
base factor is nonzero. -/
theorem LoadCell.SetUnits_units_cases (st : LoadCell) (u : WeightUnits) :
    (LoadCell.SetUnits st u).1.m_Units = st.m_Units ∨
    ((LoadCell.SetUnits st u).1.m_Units = u ∧
      LoadCell.GetBaseUnitsFactor u ≠ 0) := by
  simp only [LoadCell.SetUnits]
  split
  · split
    · left; rfl
    · right
      refine ⟨rfl, fun e => ?_⟩
      rename_i hz
      exact hz (Or.inr e)
  · left; rfl

/-- `SetAverageInterval` never changes the active units. -/
theorem LoadCell.SetAverageInterval_units (st : LoadCell) (n : Int) :
    (LoadCell.SetAverageInterval st n).1.m_Units = st.m_Units := rfl

/-- `ReadWeight` never changes the active units. -/
theorem LoadCell.ReadWeight_units (st : LoadCell) (sample : Int) :
    (LoadCell.ReadWeight st sample).1.m_Units = st.m_Units := by
  simp only [LoadCell.ReadWeight, LoadCell.ReadAndAverageRawWeight]
  split <;> rfl

/-- `Restore` copies the units field of the cache record. -/
theorem LoadCell.Restore_units (st : LoadCell) (c : LoadCell.SaveRestoreCache) :
    (LoadCell.Restore st c).m_Units = c.m_Units := rfl

/-- Every reachable state carries one of the four valid unit values, so
its base-unit factor is nonzero. -/
theorem reachable_units_factor_ne_zero {st : LoadCell} (h : Reachable st) :
    LoadCell.GetBaseUnitsFactor st.m_Units ≠ 0 := by
  induction h with
  | init => exact one_ne_zero
  | setGain st g _ ih => rwa [LoadCell.SetGain_units]
  | tare st samples _ ih => rwa [LoadCell.Tare_units]
  | calibrate st raw cooked fresh _ ih => rwa [LoadCell.Calibrate_units]
  | setUnits st u _ ih =>
      rcases LoadCell.SetUnits_units_cases st u with h | ⟨h, hnz⟩
      · rwa [h]
      · rw [h]; exact hnz
  | setAverageInterval st n _ ih => rwa [LoadCell.SetAverageInterval_units]
  | resetAverage st _ ih => exact ih
  | setOffset st q _ ih => exact ih
  | readWeight st sample _ ih => rwa [LoadCell.ReadWeight_units]
  | restore saved target _ _ ihs iht => rwa [LoadCell.Restore_units]

/-! ## Shared concrete states used by witnesses and counterexamples -/

/-- The state reached from the fresh instance by a successful `Tare` on
five identical samples of `1000`. -/
def stTared : LoadCell :=
  (LoadCell.Tare LoadCell.initial (List.replicate 5 1000)).1

/-- The state reached from `stTared` by `Calibrate(2000, 500.0)`. -/
def stCal : LoadCell := (LoadCell.Calibrate stTared 2000 500 []).1

/-- The state reached from the fresh instance by `SetGain(64)`. -/
def stGain64 : LoadCell := (LoadCell.SetGain LoadCell.initial 64).1

/-- The state reached from `stGain64` by a successful `Tare`. -/
def stTared64 : LoadCell :=
  (LoadCell.Tare stGain64 (List.replicate 5 1000)).1

/-- The calibrated gain-64 state reached from `stTared64` by
`Calibrate(2000, 500.0)`. -/
def stCal64 : LoadCell := (LoadCell.Calibrate stTared64 2000 500 []).1

/-! ## Claim C1 -/

/-- C1 counterexample: the batch `[800, 801]` (count 2) has truncated
mean `m = 800` and satisfies the non-strict bounds `max - m ≤ m/800` and
`m - min ≤ m/800` of the claim, yet `ReadRawAverage` returns `0`, not
`m`: the code uses the strict bounds `max < m + m/800` and
`min > m - m/800`, and here `max = 801 = m + m/800`. -/
theorem readRawAverage_nonstrict_band_cex :
    ([800, 801] : List Int) ≠ [] ∧
    Int.tdiv (LoadCell.gatherStats [800, 801]).sum
        (([800, 801] : List Int).length : Int) = 800 ∧
    (LoadCell.gatherStats [800, 801]).max - 800 ≤
      Int.tdiv 800 LoadCell.LIMIT_DIVISOR ∧
    800 - (LoadCell.gatherStats [800, 801]).min ≤
      Int.tdiv 800 LoadCell.LIMIT_DIVISOR ∧
    LoadCell.ReadRawAverage [800, 801] = 0 ∧
    LoadCell.ReadRawAverage [800, 801] ≠ 800 := by
  refine ⟨by decide, by decide, by decide, by decide, by decide, by decide⟩

/-- C1 (amended): for every batch of `count ≥ 1` raw samples with
truncated integer mean `m = sum/count`, `ReadRawAverage` returns `m`
whenever `max - m < m/800` and `m - min < m/800` (strict bounds, C++
truncating division), and returns `0` whenever either strict bound is
violated. -/
theorem readRawAverage_strict_band (samples : List Int)
    (hne : samples ≠ []) :
    ((LoadCell.gatherStats samples).max -
          Int.tdiv (LoadCell.gatherStats samples).sum (samples.length : Int) <
        Int.tdiv (Int.tdiv (LoadCell.gatherStats samples).sum (samples.length : Int))
          LoadCell.LIMIT_DIVISOR ∧
      Int.tdiv (LoadCell.gatherStats samples).sum (samples.length : Int) -
          (LoadCell.gatherStats samples).min <
        Int.tdiv (Int.tdiv (LoadCell.gatherStats samples).sum (samples.length : Int))
          LoadCell.LIMIT_DIVISOR →
      LoadCell.ReadRawAverage samples =
        Int.tdiv (LoadCell.gatherStats samples).sum (samples.length : Int)) ∧
    (¬((LoadCell.gatherStats samples).max -
          Int.tdiv (LoadCell.gatherStats samples).sum (samples.length : Int) <
        Int.tdiv (Int.tdiv (LoadCell.gatherStats samples).sum (samples.length : Int))
          LoadCell.LIMIT_DIVISOR ∧
      Int.tdiv (LoadCell.gatherStats samples).sum (samples.length : Int) -
          (LoadCell.gatherStats samples).min <
        Int.tdiv (Int.tdiv (LoadCell.gatherStats samples).sum (samples.length : Int))
          LoadCell.LIMIT_DIVISOR) →
      LoadCell.ReadRawAverage samples = 0) := by
  have hne2 := hne
  constructor
  · intro h
    simp only [LoadCell.ReadRawAverage]
    split_ifs with hc
    · rfl
    · exfalso
      rcases h with ⟨h1, h2⟩
      exact hc ⟨by omega, by omega⟩
  · intro h
    simp only [LoadCell.ReadRawAverage]
    split_ifs with hc
    · exfalso
      rcases hc with ⟨h1, h2⟩
      exact h ⟨by omega, by omega⟩
    · rfl

/-- C1 witness: the constant batch `[1000, 1000, 1000]` satisfies the
strict band and `ReadRawAverage` returns its mean `1000`. -/
theorem readRawAverage_strict_band_witness :
    (([1000, 1000, 1000] : List Int) ≠ []) ∧
    (((LoadCell.gatherStats [1000, 1000, 1000]).max -
          Int.tdiv (LoadCell.gatherStats [1000, 1000, 1000]).sum
            (([1000, 1000, 1000] : List Int).length : Int) <
        Int.tdiv
          (Int.tdiv (LoadCell.gatherStats [1000, 1000, 1000]).sum
            (([1000, 1000, 1000] : List Int).length : Int))
          LoadCell.LIMIT_DIVISOR ∧
      Int.tdiv (LoadCell.gatherStats [1000, 1000, 1000]).sum
          (([1000, 1000, 1000] : List Int).length : Int) -
          (LoadCell.gatherStats [1000, 1000, 1000]).min <
        Int.tdiv
          (Int.tdiv (LoadCell.gatherStats [1000, 1000, 1000]).sum
            (([1000, 1000, 1000] : List Int).length : Int))
          LoadCell.LIMIT_DIVISOR) ∧
      LoadCell.ReadRawAverage [1000, 1000, 1000] =
        Int.tdiv (LoadCell.gatherStats [1000, 1000, 1000]).sum
          (([1000, 1000, 1000] : List Int).length : Int)) :=
  ⟨by decide,
   by decide,
   (readRawAverage_strict_band [1000, 1000, 1000] (by decide)).1 (by decide)⟩

/-! ## Claim C10 -/

/-- C10: for every nonempty batch whose truncated integer mean is
nonpositive, `ReadRawAverage` returns `0`: with truncating division the
acceptance test `max < m + m/800 && min > m - m/800` is unsatisfiable
for `m ≤ 0` because `min ≤ max`, so only batches with strictly positive
mean can be accepted. -/
theorem readRawAverage_nonpos_mean_rejected (samples : List Int)
    (hne : samples ≠ [])
    (hm : Int.tdiv (LoadCell.gatherStats samples).sum (samples.length : Int) ≤ 0) :
    LoadCell.ReadRawAverage samples = 0 := by
  have hminmax := gatherStats_min_le_max hne
  have hq : Int.tdiv
      (Int.tdiv (LoadCell.gatherStats samples).sum (samples.length : Int))
      LoadCell.LIMIT_DIVISOR ≤ 0 :=
    tdiv_nonpos_of_nonpos hm (by norm_num [LoadCell.LIMIT_DIVISOR])
  simp only [LoadCell.ReadRawAverage]
  split_ifs with hc
  · exfalso
    rcases hc with ⟨h1, h2⟩
    omega
  · rfl

/-- C10 witness: the batch `[-5]` has mean `-5 ≤ 0` and the averager
returns `0`. -/
theorem readRawAverage_nonpos_mean_rejected_witness :
    ([-5] : List Int) ≠ [] ∧
    Int.tdiv (LoadCell.gatherStats [-5]).sum (([-5] : List Int).length : Int) ≤ 0 ∧
    LoadCell.ReadRawAverage [-5] = 0 :=
  ⟨by decide, by decide,
   readRawAverage_nonpos_mean_rejected [-5] (by decide) (by decide)⟩

/-! ## Claim C9 -/

/-- C9: `Average()` divides the running total by
`min(samples-seen, window-size)`; for any window size `≥ 1` (the class
invariant) that divisor is `0` exactly when no sample has been added
since construction or the last `Reset`, so `Average()` is well defined
only under the precondition that at least one `Add` has occurred since
the last `Reset`; `Reset` zeroes the seen-count, and after any `Add` the
average is defined. -/
theorem movingAverage_average_requires_add (m : MovingAverage)
    (hsize : 1 ≤ m.m_Size) :
    (m.Average = none ↔ m.m_NumValues = 0) ∧
    (m.m_NumValues ≠ 0 →
      m.Average = some (Int.tdiv m.m_Total (min m.m_NumValues m.m_Size))) ∧
    m.Reset.m_NumValues = 0 ∧
    (∀ v : Int, (m.Add v).Average ≠ none) := by
  refine ⟨?_, ?_, rfl, ?_⟩
  · simp only [MovingAverage.Average]
    constructor
    · intro h
      by_contra hn
      rw [if_neg (by omega)] at h
      exact Option.some_ne_none _ h
    · intro h
      rw [if_pos (by omega)]
  · intro h
    simp only [MovingAverage.Average]
    rw [if_neg (by omega)]
  · intro v
    have hn := MovingAverage.Add_numValues m v
    have hs := MovingAverage.Add_size m v
    simp only [MovingAverage.Average]
    rw [if_neg (by omega)]
    exact Option.some_ne_none _

/-- C9 witness, at the freshly constructed 10-slot filter. -/
theorem movingAverage_average_requires_add_witness :
    1 ≤ LoadCell.initial.m_MovingAverage.m_Size ∧
    ((LoadCell.initial.m_MovingAverage.Average = none ↔
        LoadCell.initial.m_MovingAverage.m_NumValues = 0) ∧
      (LoadCell.initial.m_MovingAverage.m_NumValues ≠ 0 →
        LoadCell.initial.m_MovingAverage.Average =
          some (Int.tdiv LoadCell.initial.m_MovingAverage.m_Total
            (min LoadCell.initial.m_MovingAverage.m_NumValues
              LoadCell.initial.m_MovingAverage.m_Size))) ∧
      LoadCell.initial.m_MovingAverage.Reset.m_NumValues = 0 ∧
      (∀ v : Int, (LoadCell.initial.m_MovingAverage.Add v).Average ≠ none)) :=
  ⟨by decide, movingAverage_average_requires_add _ (by decide)⟩

/-! ## Claim C5 -/

/-- C5: whenever `Calibrate` is called while `m_RawTareWeight` is still
at its unset sentinel `0`, it returns `false` and the whole state is
unchanged. -/
theorem calibrate_requires_tare (st : LoadCell) (raw : Int) (cooked : ℚ)
    (fresh : List Int) (h : st.m_RawTareWeight = 0) :
    LoadCell.Calibrate st raw cooked fresh = (st, false) := by
  simp [LoadCell.Calibrate, h]

/-- C5 witness: `Calibrate` on the fresh (never tared) instance fails
and changes nothing. -/
theorem calibrate_requires_tare_witness :
    LoadCell.initial.m_RawTareWeight = 0 ∧
    LoadCell.Calibrate LoadCell.initial 2000 500 [] = (LoadCell.initial, false) :=
  ⟨rfl, calibrate_requires_tare LoadCell.initial 2000 500 [] rfl⟩

/-! ## Claim C2 -/

/-- C2: `ReadWeight` returns the reserved uncalibrated sentinel and
changes no state when `m_IsCalibrated` is false; when it is true (and
the filter has its invariant window size `≥ 1`) it adds exactly one new
raw sample to the filter and returns
`(filter average - TareOffset) * ScaleFactor - DisplayOffset`. -/
theorem readWeight_contract (st : LoadCell) (sample : Int) :
    (st.m_IsCalibrated = false →
      LoadCell.ReadWeight st sample = (st, some LoadCell.UNCALIBRATED_READ_VALUE)) ∧
    (st.m_IsCalibrated = true → 1 ≤ st.m_MovingAverage.m_Size →
      (LoadCell.ReadWeight st sample).1 =
        { st with m_MovingAverage := st.m_MovingAverage.Add sample } ∧
      (LoadCell.ReadWeight st sample).2 =
        some ((((Int.tdiv (st.m_MovingAverage.Add sample).m_Total
                  (min (st.m_MovingAverage.Add sample).m_NumValues
                       (st.m_MovingAverage.Add sample).m_Size)) : ℚ)
                - (st.m_RawTareWeight : ℚ)) * st.m_UnitsScaleFactor - st.m_Offset)) := by
  constructor
  · intro h
    simp [LoadCell.ReadWeight, h]
  · intro h hsize
    have hn := MovingAverage.Add_numValues st.m_MovingAverage sample
    have hs := MovingAverage.Add_size st.m_MovingAverage sample
    have hdiv : ¬ (min (st.m_MovingAverage.Add sample).m_NumValues
        (st.m_MovingAverage.Add sample).m_Size = 0) := by omega
    constructor
    · simp [LoadCell.ReadWeight, LoadCell.ReadAndAverageRawWeight, h]
    · simp [LoadCell.ReadWeight, LoadCell.ReadAndAverageRawWeight, h,
        MovingAverage.Average, hdiv]

/-- C2 witness: the uncalibrated fresh instance returns the sentinel
unchanged, and the calibrated state `stCal` absorbs one sample. -/
theorem readWeight_contract_witness :
    LoadCell.initial.m_IsCalibrated = false ∧
    LoadCell.ReadWeight LoadCell.initial 7 =
      (LoadCell.initial, some LoadCell.UNCALIBRATED_READ_VALUE) ∧
    stCal.m_IsCalibrated = true ∧
    1 ≤ stCal.m_MovingAverage.m_Size ∧
    (LoadCell.ReadWeight stCal 1500).1 =
      { stCal with m_MovingAverage := stCal.m_MovingAverage.Add 1500 } ∧
    (LoadCell.ReadWeight stCal 1500).2 =
      some ((((Int.tdiv (stCal.m_MovingAverage.Add 1500).m_Total
                (min (stCal.m_MovingAverage.Add 1500).m_NumValues
                     (stCal.m_MovingAverage.Add 1500).m_Size)) : ℚ)
              - (stCal.m_RawTareWeight : ℚ)) * stCal.m_UnitsScaleFactor - stCal.m_Offset) :=
  ⟨rfl, (readWeight_contract LoadCell.initial 7).1 rfl, rfl, by decide,
   ((readWeight_contract stCal 1500).2 rfl (by decide)).1,
   ((readWeight_contract stCal 1500).2 rfl (by decide)).2⟩

/-! ## Claim C3 -/

/-- C3 counterexample: the batch `[1000, 1001, 999, 1000, 1002]` of the
claimed scenario is rejected by the outlier check (max `1002` is not
below the upper limit `1001`), so `Tare` fails and stores nothing,
contrary to the claim that it passes and stores `1000`. -/
theorem tare_scenario_batch_rejected_cex :
    LoadCell.ReadRawAverage [1000, 1001, 999, 1000, 1002] = 0 ∧
    (LoadCell.Tare LoadCell.initial [1000, 1001, 999, 1000, 1002]).2 = false ∧
    (LoadCell.Tare LoadCell.initial [1000, 1001, 999, 1000, 1002]).1.m_RawTareWeight = 0 ∧
    (LoadCell.Tare LoadCell.initial [1000, 1001, 999, 1000, 1002]).1.m_RawTareWeight ≠ 1000 := by
  exact ⟨by decide, rfl, rfl, by decide⟩

/-- C3 (amended): the batch `[1000, 1001, 999, 1000, 1002]` fails the
outlier check, so `Tare` on it returns false; a constant batch of five
`1000` samples passes and `Tare` stores `TareOffset = 1000`; a
subsequent `Calibrate(2000, 500.0)` sets
`ScaleFactor = 500.0 / (2000 - 1000) = 0.5`; and with the filter then
averaging to a filtered raw value of `1500` and `DisplayOffset = 0`,
`ReadWeight()` returns `250.0`. -/
theorem tare_calibrate_readWeight_scenario :
    LoadCell.ReadRawAverage [1000, 1001, 999, 1000, 1002] = 0 ∧
    (LoadCell.Tare LoadCell.initial [1000, 1001, 999, 1000, 1002]).2 = false ∧
    LoadCell.ReadRawAverage (List.replicate 5 1000) = 1000 ∧
    (LoadCell.Tare LoadCell.initial (List.replicate 5 1000)).2 = true ∧
    stTared.m_RawTareWeight = 1000 ∧
    (LoadCell.Calibrate stTared 2000 500 []).2 = true ∧
    stCal.m_UnitsScaleFactor = 1 / 2 ∧
    stCal.m_Offset = 0 ∧
    (LoadCell.ReadWeight stCal 1500).2 = some 250 := by
  refine ⟨by decide, rfl, by decide, rfl, rfl, rfl, ?_, rfl, ?_⟩
  · show (500 : ℚ) / ((Int.emod ((2000 : Int) - 1000) (2 ^ 32) : Int) : ℚ) = 1 / 2
    norm_num
  · have hcal : stCal.m_IsCalibrated = true := rfl
    have havg : (stCal.m_MovingAverage.Add 1500).Average = some 1500 := by decide
    have htare : stCal.m_RawTareWeight = 1000 := rfl
    have hoff : stCal.m_Offset = 0 := rfl
    have hsf : stCal.m_UnitsScaleFactor = 1 / 2 := by
      show (500 : ℚ) / ((Int.emod ((2000 : Int) - 1000) (2 ^ 32) : Int) : ℚ) = 1 / 2
      norm_num
    simp only [LoadCell.ReadWeight, LoadCell.ReadAndAverageRawWeight, hcal, if_true,
      havg, htare, hoff, hsf, Option.map_some']
    norm_num

/-! ## Claim C4 -/

/-- C4 counterexample: a successful `Tare` on the calibrated state
`stCal` leaves `m_IsCalibrated` at `true`, while the claim requires it
to be `false` after every successful `Tare`. -/
theorem tare_preserves_calibrated_cex :
    stCal.m_IsCalibrated = true ∧
    (LoadCell.Tare stCal [1000]).2 = true ∧
    (LoadCell.Tare stCal [1000]).1.m_IsCalibrated = true :=
  ⟨rfl, rfl, rfl⟩

/-- C4 (amended): after every successful gain change `m_IsCalibrated` is
false; a successful `Tare` leaves `m_IsCalibrated` unchanged (the code
does not clear it); and every failed `Tare` or `Calibrate` leaves the
entire state unchanged. -/
theorem calibration_state_transitions :
    (∀ (st : LoadCell) (g : Nat), (LoadCell.SetGain st g).2 = true →
      (LoadCell.SetGain st g).1.m_IsCalibrated = false) ∧
    (∀ (st : LoadCell) (samples : List Int), (LoadCell.Tare st samples).2 = true →
      (LoadCell.Tare st samples).1.m_IsCalibrated = st.m_IsCalibrated) ∧
    (∀ (st : LoadCell) (samples : List Int), (LoadCell.Tare st samples).2 = false →
      (LoadCell.Tare st samples).1 = st) ∧
    (∀ (st : LoadCell) (raw : Int) (cooked : ℚ) (fresh : List Int),
      (LoadCell.Calibrate st raw cooked fresh).2 = false →
      (LoadCell.Calibrate st raw cooked fresh).1 = st) := by
  refine ⟨?_, ?_, ?_, ?_⟩
  · intro st g h
    by_cases hc : (g = 128 ∨ g = 64) ∧ g ≠ st.m_Gain
    · simp only [LoadCell.SetGain, if_pos hc]
    · simp [LoadCell.SetGain, hc] at h
  · intro st samples h
    by_cases hc : LoadCell.ReadRawAverage samples ≠ 0
    · simp only [LoadCell.Tare, if_pos hc]
    · simp [LoadCell.Tare, hc] at h
  · intro st samples h
    by_cases hc : LoadCell.ReadRawAverage samples ≠ 0
    · simp [LoadCell.Tare, hc] at h
    · simp only [LoadCell.Tare, if_neg hc]
  · intro st raw cooked fresh h
    by_cases h0 : st.m_RawTareWeight = 0
    · simp only [LoadCell.Calibrate, if_pos h0]
    · by_cases hc : raw = 0 ∧
          (if raw = 0 then LoadCell.ReadRawAverage fresh else raw) = 0
      · simp only [LoadCell.Calibrate, if_neg h0, if_pos hc]
      · simp [LoadCell.Calibrate, h0, hc] at h

/-- C4 witness: a successful `SetGain(64)`, a successful `Tare` on a
calibrated state, a failed `Tare`, and a failed `Calibrate`, each at
concrete inputs. -/
theorem calibration_state_transitions_witness :
    (LoadCell.SetGain LoadCell.initial 64).2 = true ∧
    (LoadCell.SetGain LoadCell.initial 64).1.m_IsCalibrated = false ∧
    (LoadCell.Tare stCal [1000]).2 = true ∧
    (LoadCell.Tare stCal [1000]).1.m_IsCalibrated = stCal.m_IsCalibrated ∧
    (LoadCell.Tare LoadCell.initial [1000, 1100, 900, 1000, 1000]).2 = false ∧
    (LoadCell.Tare LoadCell.initial [1000, 1100, 900, 1000, 1000]).1 = LoadCell.initial ∧
    (LoadCell.Calibrate LoadCell.initial 2000 500 []).2 = false ∧
    (LoadCell.Calibrate LoadCell.initial 2000 500 []).1 = LoadCell.initial :=
  ⟨rfl, calibration_state_transitions.1 LoadCell.initial 64 rfl,
   rfl, calibration_state_transitions.2.1 stCal [1000] rfl,
   rfl, calibration_state_transitions.2.2.1 LoadCell.initial
      [1000, 1100, 900, 1000, 1000] rfl,
   rfl, calibration_state_transitions.2.2.2 LoadCell.initial 2000 500 [] rfl⟩

/-! ## Claim C6 -/

/-- C6: the round trip `Save()` then `Restore()` into a freshly
constructed instance does NOT reproduce the calibrated flag for the
reachable state `stCal64` (gain 64, calibrated): `Restore` assigns
`m_IsCalibrated` from the blob and only then calls `SetGain`, and
`SetGain(64)` on the fresh instance (default gain 128) sees a gain
change and clears `m_IsCalibrated`.  Every other saved field is
reproduced exactly. -/
theorem save_restore_loses_calibrated_flag :
    (LoadCell.SetGain LoadCell.initial 64).2 = true ∧
    (LoadCell.Tare stGain64 (List.replicate 5 1000)).2 = true ∧
    (LoadCell.Calibrate stTared64 2000 500 []).2 = true ∧
    stCal64.m_Gain = 64 ∧
    stCal64.m_IsCalibrated = true ∧
    (LoadCell.Restore LoadCell.initial (LoadCell.Save stCal64)).m_Gain = stCal64.m_Gain ∧
    (LoadCell.Restore LoadCell.initial (LoadCell.Save stCal64)).m_RawTareWeight =
      stCal64.m_RawTareWeight ∧
    (LoadCell.Restore LoadCell.initial (LoadCell.Save stCal64)).m_Offset =
      stCal64.m_Offset ∧
    (LoadCell.Restore LoadCell.initial (LoadCell.Save stCal64)).m_Units =
      stCal64.m_Units ∧
    (LoadCell.Restore LoadCell.initial (LoadCell.Save stCal64)).m_AverageInterval =
      stCal64.m_AverageInterval ∧
    (LoadCell.Restore LoadCell.initial (LoadCell.Save stCal64)).m_UnitsScaleFactor =
      stCal64.m_UnitsScaleFactor ∧
    (LoadCell.Restore LoadCell.initial (LoadCell.Save stCal64)).m_IsCalibrated = false :=
  ⟨rfl, rfl, rfl, rfl, rfl, rfl, rfl, rfl, rfl, rfl, rfl, rfl⟩

/-! ## Claim C7 -/

/-- C7: for every unit change where both base-unit factors are nonzero,
`SetUnits` multiplies both the display offset and the scale factor by
`k = BaseFactor(old) / BaseFactor(new)` and installs the new unit, so
the physically reported weight (reported value times base factor of the
active unit) of any hypothetical future read is unchanged. -/
theorem setUnits_rescales_exactly (st : LoadCell) (u : WeightUnits)
    (h1 : LoadCell.GetBaseUnitsFactor st.m_Units ≠ 0)
    (h2 : LoadCell.GetBaseUnitsFactor u ≠ 0) :
    (LoadCell.SetUnits st u).2 = true ∧
    (LoadCell.SetUnits st u).1.m_Units = u ∧
    (LoadCell.SetUnits st u).1.m_Offset =
      st.m_Offset *
        (LoadCell.GetBaseUnitsFactor st.m_Units / LoadCell.GetBaseUnitsFactor u) ∧
    (LoadCell.SetUnits st u).1.m_UnitsScaleFactor =
      st.m_UnitsScaleFactor *
        (LoadCell.GetBaseUnitsFactor st.m_Units / LoadCell.GetBaseUnitsFactor u) ∧
    ∀ raw : Int,
      ((((raw : ℚ) - ((LoadCell.SetUnits st u).1.m_RawTareWeight : ℚ)) *
            (LoadCell.SetUnits st u).1.m_UnitsScaleFactor) -
          (LoadCell.SetUnits st u).1.m_Offset) * LoadCell.GetBaseUnitsFactor u
        = ((((raw : ℚ) - (st.m_RawTareWeight : ℚ)) * st.m_UnitsScaleFactor) -
            st.m_Offset) * LoadCell.GetBaseUnitsFactor st.m_Units := by
  by_cases hu : u = st.m_Units
  · subst hu
    have hset : LoadCell.SetUnits st st.m_Units = (st, true) := by
      simp only [LoadCell.SetUnits, if_neg (fun hh : st.m_Units ≠ st.m_Units => hh rfl)]
    rw [hset]
    exact ⟨rfl, rfl, by rw [div_self h1, mul_one], by rw [div_self h1, mul_one],
      fun raw => rfl⟩
  · have hz : ¬ (LoadCell.GetBaseUnitsFactor st.m_Units = 0 ∨
        LoadCell.GetBaseUnitsFactor u = 0) := by
      intro hc
      rcases hc with hc | hc
      · exact h1 hc
      · exact h2 hc
    refine ⟨?_, ?_, ?_, ?_, fun raw => ?_⟩ <;>
      simp only [LoadCell.SetUnits, if_pos hu, if_neg hz]
    field_simp
    ring

/-- C7 witness: switching the calibrated gram-based state `stCal` to
kilograms. -/
theorem setUnits_rescales_exactly_witness :
    LoadCell.GetBaseUnitsFactor stCal.m_Units ≠ 0 ∧
    LoadCell.GetBaseUnitsFactor WeightUnits.eWuKiloGrams ≠ 0 ∧
    ((LoadCell.SetUnits stCal WeightUnits.eWuKiloGrams).2 = true ∧
      (LoadCell.SetUnits stCal WeightUnits.eWuKiloGrams).1.m_Units =
        WeightUnits.eWuKiloGrams ∧
      (LoadCell.SetUnits stCal WeightUnits.eWuKiloGrams).1.m_Offset =
        stCal.m_Offset * (LoadCell.GetBaseUnitsFactor stCal.m_Units /
          LoadCell.GetBaseUnitsFactor WeightUnits.eWuKiloGrams) ∧
      (LoadCell.SetUnits stCal WeightUnits.eWuKiloGrams).1.m_UnitsScaleFactor =
        stCal.m_UnitsScaleFactor * (LoadCell.GetBaseUnitsFactor stCal.m_Units /
          LoadCell.GetBaseUnitsFactor WeightUnits.eWuKiloGrams) ∧
      ∀ raw : Int,
        ((((raw : ℚ) -
              ((LoadCell.SetUnits stCal WeightUnits.eWuKiloGrams).1.m_RawTareWeight : ℚ)) *
              (LoadCell.SetUnits stCal WeightUnits.eWuKiloGrams).1.m_UnitsScaleFactor) -
            (LoadCell.SetUnits stCal WeightUnits.eWuKiloGrams).1.m_Offset) *
            LoadCell.GetBaseUnitsFactor WeightUnits.eWuKiloGrams
          = ((((raw : ℚ) - (stCal.m_RawTareWeight : ℚ)) * stCal.m_UnitsScaleFactor) -
              stCal.m_Offset) * LoadCell.GetBaseUnitsFactor stCal.m_Units) :=
  ⟨one_ne_zero,
   by norm_num [LoadCell.GetBaseUnitsFactor, LoadCell.GRAMS_PER_KILOGRAM],
   setUnits_rescales_exactly stCal WeightUnits.eWuKiloGrams one_ne_zero
     (by norm_num [LoadCell.GetBaseUnitsFactor, LoadCell.GRAMS_PER_KILOGRAM])⟩

/-! ## Claim C8 -/

/-- C8: for every call `SetUnits(u)` on a reachable state where the
base-unit factor of `u` or of the current unit is the invalid sentinel
`0.0` (which for reachable states can only mean `u` is outside the four
valid unit values), the call returns false and the state is unchanged. -/
theorem setUnits_invalid_unit_rejected (st : LoadCell) (u : WeightUnits)
    (hr : Reachable st)
    (h : LoadCell.GetBaseUnitsFactor u = 0 ∨
      LoadCell.GetBaseUnitsFactor st.m_Units = 0) :
    LoadCell.SetUnits st u = (st, false) := by
  have hv := reachable_units_factor_ne_zero hr
  have hu0 : LoadCell.GetBaseUnitsFactor u = 0 := h.resolve_right hv
  have hne : u ≠ st.m_Units := fun e => hv (e ▸ hu0)
  have hz : LoadCell.GetBaseUnitsFactor st.m_Units = 0 ∨
      LoadCell.GetBaseUnitsFactor u = 0 := Or.inr hu0
  simp only [LoadCell.SetUnits, if_pos hne, if_pos hz]

/-- C8 witness: `SetUnits(eWuBadVal)` on the (reachable) fresh instance
is rejected without any state change. -/
theorem setUnits_invalid_unit_rejected_witness :
    Reachable LoadCell.initial ∧
    (LoadCell.GetBaseUnitsFactor WeightUnits.eWuBadVal = 0 ∨
      LoadCell.GetBaseUnitsFactor LoadCell.initial.m_Units = 0) ∧
    LoadCell.SetUnits LoadCell.initial WeightUnits.eWuBadVal =
      (LoadCell.initial, false) :=
  ⟨Reachable.init, Or.inl rfl,
   setUnits_invalid_unit_rejected LoadCell.initial WeightUnits.eWuBadVal
     Reachable.init (Or.inl rfl)⟩
